import Mathlib

/-!
Shallow embedding of the cart / order / payment core of the TheKitchen
Flask application (src/models.py, src/config.py, src/routes/cart_api.py,
src/routes/orders_api.py, src/routes/payments_api.py,
src/routes/menu_api.py).

Monetary columns are `Numeric(10,2)`; we model them as `ℚ` and keep the
arithmetic exactly as written in the Python source.  Each HTTP handler
becomes a pure function from a database snapshot (plus its request
parameters) to `Except ErrResp (DB × result)`: an `.error` return models
the handler bailing out via `_bad_request` before committing anything, so
the database is unchanged in that case.  Python's truthiness check
`not data.get(k)` on required fields is modelled by comparing with `0`
(for integers) and `""` (for strings), and Python's `str.strip` by
`String.trim`.
-/

namespace TheKitchen

/-- `models.MenuItem`: the fields the core reads (id, price, availability). -/
structure MenuItem where
  id : Nat
  price : ℚ
  is_available : Bool
  deriving DecidableEq, Repr

/-- `models.Cart`: one row of the `cart` table.  `session_id` is set for
guest rows, `user_id` for rows owned by a logged-in user; `cart_api` and
`orders_api` only ever filter on one of the two columns. -/
structure CartEntry where
  id : Nat
  session_id : Option String
  user_id : Option Nat
  menu_item_id : Nat
  quantity : Nat
  notes : String
  deriving DecidableEq, Repr

/-- `models.Order`: the money and status fields of an order row. -/
structure Order where
  id : Nat
  user_id : Nat
  status : String
  subtotal : ℚ
  delivery_fee : ℚ
  total_amount : ℚ
  advance_amount : ℚ
  delivery_address : String
  notes : String
  deriving DecidableEq, Repr

/-- `models.OrderItem`: a frozen line of an order. -/
structure OrderItem where
  id : Nat
  order_id : Nat
  menu_item_id : Nat
  quantity : Nat
  unit_price : ℚ
  notes : String
  deriving DecidableEq, Repr

/-- `models.Payment`: one payment row (at most one per order by design). -/
structure Payment where
  id : Nat
  order_id : Nat
  method : String
  amount : ℚ
  status : String
  screenshot_url : Option String
  transaction_id : Option String
  notes : String
  deriving DecidableEq, Repr

/-- A snapshot of the relational store, together with the id sequences the
database would use for freshly inserted rows. -/
structure DB where
  menu_items : List MenuItem
  cart : List CartEntry
  orders : List Order
  order_items : List OrderItem
  payments : List Payment
  next_cart_id : Nat
  next_order_id : Nat
  next_order_item_id : Nat
  next_payment_id : Nat
  deriving DecidableEq, Repr

/-- `_bad_request(message, status_code)`: the JSON error response. -/
structure ErrResp where
  msg : String
  code : Nat
  deriving DecidableEq, Repr

/-- `config.Config.MIN_DELIVERY_FEE` (40 EGP). -/
def MIN_DELIVERY_FEE : ℚ := 40

/-- `config.Config.MAX_DELIVERY_FEE` (80 EGP). -/
def MAX_DELIVERY_FEE : ℚ := 80

/-- `config.Config.ADVANCE_PAYMENT_PERCENTAGE` (20 per cent). -/
def ADVANCE_PAYMENT_PERCENTAGE : ℚ := 20

/-- `config.Config.ALLOWED_EXTENSIONS` for payment-proof uploads. -/
def ALLOWED_EXTENSIONS : List String := ["png", "jpg", "jpeg", "gif", "webp"]

/-- Valid payment methods checked by `payments_api.create_payment`. -/
def valid_methods : List String :=
  ["instapay", "vodafone_cash", "orange_money", "etisalat_wallet", "cod"]

/-- SQLAlchemy mutates the first row returned by `.first()` in place; this
helper applies `f` to the first element satisfying `p` and keeps the rest. -/
def updateFirst (p : α → Bool) (f : α → α) : List α → List α
  | [] => []
  | x :: xs => if p x then f x :: xs else x :: updateFirst p f xs

/-- `cart_item.menu_item.price`: the price of the referenced menu item.
The foreign key guarantees the row exists; the `0` default is never
reachable under the well-formedness hypotheses of the theorems below. -/
def priceOf (db : DB) (mid : Nat) : ℚ :=
  match db.menu_items.find? (fun m => m.id == mid) with
  | some m => m.price
  | none => 0

/-- The current actor of a cart request: a logged-in user or a guest
session (`session['user_id']` present or not). -/
inductive Owner where
  | user (uid : Nat)
  | guest (sid : String)
  deriving DecidableEq, Repr

/-- The column filter `cart_api` uses to select the caller's cart rows:
`filter_by(user_id=...)` for users, `filter_by(session_id=...)` for guests. -/
def cartOwnerMatches (owner : Owner) (c : CartEntry) : Bool :=
  match owner with
  | .user uid => c.user_id == some uid
  | .guest sid => c.session_id == some sid

/-- `user_id = session.get('user_id')`: the `user_id` column value for a
freshly inserted cart row. -/
def ownerUserId : Owner → Option Nat
  | .user u => some u
  | .guest _ => none

/-- `session_id = get_session_id() if not user_id else None`: the
`session_id` column value for a freshly inserted cart row. -/
def ownerSessionId : Owner → Option String
  | .guest s => some s
  | .user _ => none

/-- `cart_api.add_to_cart`.  Required-field truthiness, positivity check,
menu-item existence and availability checks, then either increment the
existing `(owner, menu_item)` row or insert a fresh one. -/
def add_to_cart (db : DB) (owner : Owner) (menu_item_id : Nat) (quantity : Int)
    (notes : String) : Except ErrResp DB :=
  if menu_item_id == 0 ∨ quantity == 0 then
    .error ⟨"Missing fields: menu_item_id, quantity", 400⟩
  else if quantity ≤ 0 then
    .error ⟨"Quantity must be greater than 0", 400⟩
  else
    match db.menu_items.find? (fun m => m.id == menu_item_id) with
    | none => .error ⟨"Menu item not found", 404⟩
    | some mi =>
      if ¬ mi.is_available then
        .error ⟨"Menu item is not available", 400⟩
      else
        let nts := notes.trim
        match db.cart.find? (fun c =>
            cartOwnerMatches owner c && c.menu_item_id == menu_item_id) with
        | some _ =>
          let cart' := updateFirst
            (fun c => cartOwnerMatches owner c && c.menu_item_id == menu_item_id)
            (fun c => { c with
              quantity := c.quantity + quantity.toNat,
              notes := if nts ≠ "" then nts else c.notes }) db.cart
          .ok { db with cart := cart' }
        | none =>
          let entry : CartEntry :=
            { id := db.next_cart_id,
              session_id := ownerSessionId owner,
              user_id := ownerUserId owner,
              menu_item_id := menu_item_id,
              quantity := quantity.toNat,
              notes := nts }
          .ok { db with cart := db.cart ++ [entry], next_cart_id := db.next_cart_id + 1 }

/-- One iteration of the `merge_cart` loop, acting on the live cart:
re-fetch the guest row by id, then either fold its quantity into the
user's row for the same menu item or re-own it. -/
def mergeOne (uid : Nat) (cart : List CartEntry) (gid : Nat) : List CartEntry :=
  match cart.find? (fun c => c.id == gid) with
  | none => cart
  | some g =>
    match cart.find? (fun c => c.user_id == some uid && c.menu_item_id == g.menu_item_id) with
    | some _ =>
      updateFirst (fun c => c.user_id == some uid && c.menu_item_id == g.menu_item_id)
        (fun c => { c with
          quantity := c.quantity + g.quantity,
          notes := if g.notes ≠ "" ∧ c.notes = "" then g.notes else c.notes }) cart
    | none =>
      updateFirst (fun c => c.id == gid)
        (fun c => { c with user_id := some uid, session_id := none }) cart

/-- `cart_api.merge_cart`: iterate over the snapshot of guest rows taken
before the loop (modelled by their ids) and merge each into the user cart. -/
def merge_cart (db : DB) (uid : Nat) (sid : String) : DB :=
  let guest_ids := (db.cart.filter (fun c => c.session_id == some sid)).map (fun c => c.id)
  { db with cart := guest_ids.foldl (mergeOne uid) db.cart }

/-- The `for cart_item in cart_items` loop of `orders_api.create_order`:
one `OrderItem` per cart row, copying quantity, notes and the *current*
menu-item price as the frozen `unit_price`; `flush()` hands out
consecutive ids. -/
def buildOrderItems (db : DB) (oid : Nat) (startId : Nat) :
    List CartEntry → List OrderItem
  | [] => []
  | c :: cs =>
    { id := startId, order_id := oid, menu_item_id := c.menu_item_id,
      quantity := c.quantity, unit_price := priceOf db c.menu_item_id,
      notes := c.notes } :: buildOrderItems db oid (startId + 1) cs

/-- `orders_api.create_order` (POST /orders): required-field check, empty
cart check, subtotal from current prices, delivery fee defaulted to the
configured minimum, totals, then atomically insert the order and its
items and delete the caller's cart rows. -/
def create_order (db : DB) (user_id : Nat) (delivery_address : String)
    (notes : String) : Except ErrResp (DB × Order) :=
  if delivery_address = "" then
    .error ⟨"Missing fields: delivery_address", 400⟩
  else
    let cart_items := db.cart.filter (fun c => c.user_id == some user_id)
    if cart_items.isEmpty then
      .error ⟨"Cart is empty", 400⟩
    else
      let subtotal := (cart_items.map
        (fun c => priceOf db c.menu_item_id * (c.quantity : ℚ))).sum
      let delivery_fee := MIN_DELIVERY_FEE
      let total_amount := subtotal + delivery_fee
      let advance_amount := total_amount * (ADVANCE_PAYMENT_PERCENTAGE / 100)
      let order : Order :=
        { id := db.next_order_id, user_id := user_id, status := "new",
          subtotal := subtotal, delivery_fee := delivery_fee,
          total_amount := total_amount, advance_amount := advance_amount,
          delivery_address := delivery_address.trim, notes := notes.trim }
      let new_items := buildOrderItems db order.id db.next_order_item_id cart_items
      let db' : DB :=
        { db with
          orders := db.orders ++ [order],
          order_items := db.order_items ++ new_items,
          cart := db.cart.filter (fun c => !(c.user_id == some user_id)),
          next_order_id := db.next_order_id + 1,
          next_order_item_id := db.next_order_item_id + new_items.length }
      .ok (db', order)

/-- `orders_api.update_delivery_fee` (PUT /orders/id/delivery-fee):
bounds-check the fee, then recompute `total_amount` and `advance_amount`
from the frozen subtotal.  `none` models a request body without a
`delivery_fee` field. -/
def update_delivery_fee (db : DB) (order_id : Nat) (fee? : Option ℚ) :
    Except ErrResp (DB × Order) :=
  match db.orders.find? (fun o => o.id == order_id) with
  | none => .error ⟨"Order not found", 404⟩
  | some order =>
    match fee? with
    | none => .error ⟨"Delivery fee required", 400⟩
    | some fee =>
      if fee < MIN_DELIVERY_FEE ∨ MAX_DELIVERY_FEE < fee then
        .error ⟨"Delivery fee must be between 40 and 80 EGP", 400⟩
      else
        let order' := { order with
          delivery_fee := fee,
          total_amount := order.subtotal + fee,
          advance_amount := (order.subtotal + fee) * (ADVANCE_PAYMENT_PERCENTAGE / 100) }
        .ok ({ db with
          orders := updateFirst (fun o => o.id == order_id) (fun _ => order') db.orders },
          order')

/-- The price branch of `menu_api.update_menu_item` (PUT /menu/id with a
`price` field): set the menu item's current price. -/
def update_menu_item_price (db : DB) (item_id : Nat) (price : ℚ) :
    Except ErrResp DB :=
  match db.menu_items.find? (fun m => m.id == item_id) with
  | none => .error ⟨"Menu item not found", 404⟩
  | some _ =>
    .ok { db with
      menu_items := updateFirst (fun m => m.id == item_id)
        (fun m => { m with price := price }) db.menu_items }

/-- One iteration of the `for order_item in original_order.items` loop of
`orders_api.reorder`, threading the cart together with the id sequence. -/
def reorderStep (uid : Nat) (st : List CartEntry × Nat) (oi : OrderItem) :
    List CartEntry × Nat :=
  match st.1.find? (fun c => c.user_id == some uid && c.menu_item_id == oi.menu_item_id) with
  | some _ =>
    (updateFirst (fun c => c.user_id == some uid && c.menu_item_id == oi.menu_item_id)
      (fun c => { c with quantity := c.quantity + oi.quantity }) st.1, st.2)
  | none =>
    (st.1 ++ [{ id := st.2, session_id := none, user_id := some uid,
                menu_item_id := oi.menu_item_id, quantity := oi.quantity,
                notes := oi.notes }], st.2 + 1)

/-- `orders_api.reorder` (POST /orders/id/reorder): for a past order of
the caller, add every order item's menu item and quantity back into the
live cart.  Note: no availability check on the menu items. -/
def reorder (db : DB) (uid : Nat) (order_id : Nat) : Except ErrResp DB :=
  match db.orders.find? (fun o => o.id == order_id && o.user_id == uid) with
  | none => .error ⟨"Order not found", 404⟩
  | some _ =>
    let items := db.order_items.filter (fun oi => oi.order_id == order_id)
    let st := items.foldl (reorderStep uid) (db.cart, db.next_cart_id)
    .ok { db with cart := st.1, next_cart_id := st.2 }

/-- `payments_api.create_payment` (POST /payments): required-field
truthiness, method allow-list, order ownership, one-payment-per-order
check, then insert a pending payment whose amount is the order's current
`advance_amount`. -/
def create_payment (db : DB) (user_id : Nat) (order_id : Nat) (method : String)
    (notes : String) : Except ErrResp (DB × Payment) :=
  if order_id == 0 ∨ method = "" then
    .error ⟨"Missing fields: order_id, method", 400⟩
  else if ¬ valid_methods.contains method then
    .error ⟨"Invalid payment method. Must be one of: instapay, vodafone_cash, orange_money, etisalat_wallet, cod", 400⟩
  else
    match db.orders.find? (fun o => o.id == order_id && o.user_id == user_id) with
    | none => .error ⟨"Order not found", 404⟩
    | some order =>
      match db.payments.find? (fun p => p.order_id == order_id) with
      | some _ => .error ⟨"Payment already exists for this order", 409⟩
      | none =>
        let payment : Payment :=
          { id := db.next_payment_id, order_id := order_id, method := method,
            amount := order.advance_amount, status := "pending",
            screenshot_url := none, transaction_id := none, notes := notes.trim }
        .ok ({ db with
          payments := db.payments ++ [payment],
          next_payment_id := db.next_payment_id + 1 }, payment)

/-- The characters after the last `'.'` of a name, or `none` when no dot
is present: `filename.rsplit('.', 1)[1]` guarded by `'.' in filename`. -/
def extensionAfterLastDot : List Char → Option (List Char)
  | [] => none
  | c :: cs =>
    match extensionAfterLastDot cs with
    | some r => some r
    | none => if c = '.' then some cs else none

/-- `payments_api.allowed_file`: a dot is present and the extension after
the last dot, lowercased, is on the image allow-list. -/
def allowed_file (filename : String) : Bool :=
  match extensionAfterLastDot filename.toList with
  | none => false
  | some ext =>
    (ALLOWED_EXTENSIONS.map (fun s => s.toList)).contains (ext.map Char.toLower)

/-- The `Payment.query.join(Order)` filter of
`payments_api.upload_payment_proof`: the payment with this id whose
parent order belongs to the caller. -/
def paymentOwnedBy (db : DB) (uid : Nat) (pid : Nat) (p : Payment) : Bool :=
  p.id == pid &&
    match db.orders.find? (fun o => o.id == p.order_id) with
    | some o => o.user_id == uid
    | none => false

/-- `payments_api.upload_payment_proof` (POST /payments/id/upload).
`file?` is the `screenshot` entry of `request.files` (its original
filename); `timestamp` is the wall-clock string the handler embeds in the
stored name and `secure_name` is werkzeug's `secure_filename` result,
both supplied as inputs since they come from external collaborators.
A successful upload stores the proof reference and forces the payment's
status back to `pending`, whatever it was before. -/
def upload_payment_proof (db : DB) (user_id : Nat) (payment_id : Nat)
    (file? : Option String) (timestamp : String) (secure_name : String) :
    Except ErrResp (DB × Payment) :=
  match db.payments.find? (paymentOwnedBy db user_id payment_id) with
  | none => .error ⟨"Payment not found", 404⟩
  | some payment =>
    match file? with
    | none => .error ⟨"No file uploaded", 400⟩
    | some filename =>
      if filename = "" then
        .error ⟨"No file selected", 400⟩
      else if ¬ allowed_file filename then
        .error ⟨"File type not allowed. Allowed types: png, jpg, jpeg, gif, webp", 400⟩
      else
        let stored := "payment_" ++ toString payment_id ++ "_" ++ timestamp ++ "_" ++ secure_name
        let payment' := { payment with
          screenshot_url := some ("/static/uploads/payments/" ++ stored),
          status := "pending" }
        .ok ({ db with
          payments := updateFirst (paymentOwnedBy db user_id payment_id)
            (fun _ => payment') db.payments }, payment')

/-- `payments_api.confirm_payment` (PUT /payments/id/confirm): set the
payment's status to confirmed (transaction id and notes only if
non-empty), and advance the parent order from `new` to `confirmed`;
any other order status is left alone. -/
def confirm_payment (db : DB) (payment_id : Nat) (transaction_id : String)
    (notes : String) : Except ErrResp (DB × Payment) :=
  match db.payments.find? (fun p => p.id == payment_id) with
  | none => .error ⟨"Payment not found", 404⟩
  | some payment =>
    let tid := transaction_id.trim
    let nts := notes.trim
    let payment' := { payment with
      status := "confirmed",
      transaction_id := if tid ≠ "" then some tid else payment.transaction_id,
      notes := if nts ≠ "" then nts else payment.notes }
    let orders' := updateFirst (fun o => o.id == payment.order_id)
      (fun o => if o.status = "new" then { o with status := "confirmed" } else o)
      db.orders
    .ok ({ db with
      payments := updateFirst (fun p => p.id == payment_id) (fun _ => payment') db.payments,
      orders := orders' }, payment')

/-- `payments_api.reject_payment` (PUT /payments/id/reject): the stripped
rejection reason is mandatory; on success only the payment's status and
notes change, never the parent order. -/
def reject_payment (db : DB) (payment_id : Nat) (notes : String) :
    Except ErrResp (DB × Payment) :=
  match db.payments.find? (fun p => p.id == payment_id) with
  | none => .error ⟨"Payment not found", 404⟩
  | some payment =>
    let nts := notes.trim
    if nts = "" then
      .error ⟨"Rejection reason required", 400⟩
    else
      let payment' := { payment with status := "rejected", notes := nts }
      .ok ({ db with
        payments := updateFirst (fun p => p.id == payment_id) (fun _ => payment') db.payments },
        payment')

/-! ### List helper lemmas -/

theorem updateFirst_append_left {p : α → Bool} {f : α → α} {l1 : List α}
    (l2 : List α) (h : ∀ x ∈ l1, p x = false) :
    updateFirst p f (l1 ++ l2) = l1 ++ updateFirst p f l2 := by
  induction l1 with
  | nil => rfl
  | cons a t ih =>
    simp only [List.cons_append, updateFirst, h a (List.mem_cons_self a t)]
    simp only [Bool.false_eq_true, if_false, List.cons.injEq, true_and]
    exact ih (fun x hx => h x (List.mem_cons_of_mem a hx))

theorem find?_append_left {p : α → Bool} {l1 : List α} (l2 : List α)
    (h : ∀ x ∈ l1, p x = false) :
    (l1 ++ l2).find? p = l2.find? p := by
  induction l1 with
  | nil => rfl
  | cons a t ih =>
    simp only [List.cons_append, List.find?, h a (List.mem_cons_self a t)]
    exact ih (fun x hx => h x (List.mem_cons_of_mem a hx))

theorem find?_split {p : α → Bool} {l : List α} {x : α} (h : l.find? p = some x) :
    ∃ l1 l2, l = l1 ++ x :: l2 ∧ (∀ y ∈ l1, p y = false) ∧
      ∀ f, updateFirst p f l = l1 ++ f x :: l2 := by
  induction l with
  | nil => simp at h
  | cons a t ih =>
    by_cases hpa : p a = true
    · rw [List.find?_cons_of_pos _ hpa] at h
      obtain rfl : a = x := by injection h
      exact ⟨[], t, rfl, by simp, fun f => by simp [updateFirst, hpa]⟩
    · have hpa' : p a = false := by revert hpa; cases p a <;> simp
      rw [List.find?_cons_of_neg _ (by simp [hpa'])] at h
      obtain ⟨l1, l2, hl, hall, hupd⟩ := ih h
      refine ⟨a :: l1, l2, by simp [hl], ?_, ?_⟩
      · intro y hy
        rcases List.mem_cons.1 hy with rfl | hy'
        · exact hpa'
        · exact hall y hy'
      · intro f
        simp [updateFirst, hpa', hupd f]

theorem find?_replace_mid {q : α → Bool} {l1 l2 : List α} {u u' x : α}
    (h : (l1 ++ u :: l2).find? q = some x) (hq : q u' = q u) (hx : x ≠ u) :
    (l1 ++ u' :: l2).find? q = some x := by
  induction l1 with
  | nil =>
    simp only [List.nil_append, List.find?] at h ⊢
    rw [hq]
    cases hqu : q u with
    | true =>
      rw [hqu] at h
      simp at h
      exact absurd h.symm hx
    | false =>
      rw [hqu] at h
      exact h
  | cons a t ih =>
    simp only [List.cons_append, List.find?] at h ⊢
    cases hqa : q a with
    | true => rw [hqa] at h; exact h
    | false => rw [hqa] at h; exact ih h

theorem mem_of_find?_filter_nil {p : α → Bool} {l : List α}
    (h : l.find? p = none) : l.filter p = [] := by
  rw [List.filter_eq_nil_iff]
  intro a ha
  have := List.find?_eq_none.1 h a ha
  simpa using this

/-! ### Lemmas about `buildOrderItems` -/

theorem buildOrderItems_length (db : DB) (oid s : Nat) (cs : List CartEntry) :
    (buildOrderItems db oid s cs).length = cs.length := by
  induction cs generalizing s with
  | nil => rfl
  | cons c t ih => simp [buildOrderItems, ih]

theorem buildOrderItems_order_id (db : DB) (oid s : Nat) (cs : List CartEntry) :
    ∀ oi ∈ buildOrderItems db oid s cs, oi.order_id = oid := by
  induction cs generalizing s with
  | nil => intro oi h; simp [buildOrderItems] at h
  | cons c t ih =>
    intro oi h
    rcases List.mem_cons.1 h with rfl | h'
    · rfl
    · exact ih (s + 1) oi h'

theorem buildOrderItems_mem (db : DB) (oid s : Nat) (cs : List CartEntry) :
    ∀ oi ∈ buildOrderItems db oid s cs, ∃ c ∈ cs,
      oi.menu_item_id = c.menu_item_id ∧ oi.quantity = c.quantity ∧
      oi.unit_price = priceOf db c.menu_item_id ∧ oi.notes = c.notes := by
  induction cs generalizing s with
  | nil => intro oi h; simp [buildOrderItems] at h
  | cons c t ih =>
    intro oi h
    rcases List.mem_cons.1 h with rfl | h'
    · exact ⟨c, List.mem_cons_self c t, rfl, rfl, rfl, rfl⟩
    · obtain ⟨c', hc', hrest⟩ := ih (s + 1) oi h'
      exact ⟨c', List.mem_cons_of_mem c hc', hrest⟩

/-! ### Claims -/

/-- C2: for every order, `total_amount = subtotal + delivery_fee` and
`advance_amount = total_amount * (advance percentage / 100)`, both
immediately after a checkout (`create_order`) and after any successful
delivery-fee update (`update_delivery_fee`). -/
theorem claim_C2_money_invariant (db : DB) (uid : Nat) (addr nts : String)
    (haddr : addr ≠ "")
    (hcart : db.cart.filter (fun c => c.user_id == some uid) ≠ [])
    (db2 : DB) (oid : Nat) (o : Order)
    (ho : db2.orders.find? (fun x => x.id == oid) = some o)
    (fee : ℚ) (hlo : MIN_DELIVERY_FEE ≤ fee) (hhi : fee ≤ MAX_DELIVERY_FEE) :
    (∃ db1 o1, create_order db uid addr nts = .ok (db1, o1) ∧
      o1.total_amount = o1.subtotal + o1.delivery_fee ∧
      o1.advance_amount = o1.total_amount * (ADVANCE_PAYMENT_PERCENTAGE / 100)) ∧
    (∃ db2' o2, update_delivery_fee db2 oid (some fee) = .ok (db2', o2) ∧
      o2.total_amount = o2.subtotal + o2.delivery_fee ∧
      o2.advance_amount = o2.total_amount * (ADVANCE_PAYMENT_PERCENTAGE / 100)) := by
  constructor
  · have hne : ¬ ((db.cart.filter (fun c => c.user_id == some uid)).isEmpty = true) := by
      simp only [List.isEmpty_iff]
      exact hcart
    simp only [create_order, if_neg haddr, if_neg hne]
    exact ⟨_, _, rfl, rfl, rfl⟩
  · have hnb : ¬ (fee < MIN_DELIVERY_FEE ∨ MAX_DELIVERY_FEE < fee) := by
      push_neg
      exact ⟨hlo, hhi⟩
    simp only [update_delivery_fee, ho, if_neg hnb]
    exact ⟨_, _, rfl, rfl, rfl⟩

/-- Concrete database for the C2 witness: one menu item at 65 EGP and a
user cart holding two of it. -/
def dbC2 : DB := ⟨[⟨1, 65, true⟩], [⟨1, none, some 1, 1, 2, ""⟩], [], [], [], 2, 1, 1, 1⟩

/-- Concrete database for the C2 witness: one already placed order. -/
def dbC2b : DB := ⟨[], [], [⟨1, 1, "new", 175, 40, 215, 43, "X", ""⟩], [], [], 1, 2, 1, 1⟩

/-- Witness for C2 at a concrete checkout and a concrete fee update. -/
theorem claim_C2_money_invariant_witness :
    ("X" : String) ≠ "" ∧
    dbC2.cart.filter (fun c => c.user_id == some 1) ≠ [] ∧
    dbC2b.orders.find? (fun x => x.id == 1) =
      some ⟨1, 1, "new", 175, 40, 215, 43, "X", ""⟩ ∧
    MIN_DELIVERY_FEE ≤ (50 : ℚ) ∧ (50 : ℚ) ≤ MAX_DELIVERY_FEE ∧
    ((∃ db1 o1, create_order dbC2 1 "X" "" = .ok (db1, o1) ∧
        o1.total_amount = o1.subtotal + o1.delivery_fee ∧
        o1.advance_amount = o1.total_amount * (ADVANCE_PAYMENT_PERCENTAGE / 100)) ∧
      (∃ db2' o2, update_delivery_fee dbC2b 1 (some 50) = .ok (db2', o2) ∧
        o2.total_amount = o2.subtotal + o2.delivery_fee ∧
        o2.advance_amount = o2.total_amount * (ADVANCE_PAYMENT_PERCENTAGE / 100))) :=
  ⟨by decide, by decide, by decide, by decide, by decide,
    claim_C2_money_invariant dbC2 1 "X" "" (by decide) (by decide) dbC2b 1
      ⟨1, 1, "new", 175, 40, 215, 43, "X", ""⟩ (by decide) 50 (by decide) (by decide)⟩

/-- C6: updating the delivery fee with a value outside the configured
bounds fails with InvalidInput (the handler returns before any mutation,
so the order is unchanged); a fee within bounds succeeds and recomputes
`total_amount` and `advance_amount` from the frozen subtotal, leaving the
subtotal, the status and every `OrderItem` row untouched. -/
theorem claim_C6_delivery_fee_bounds (db : DB) (oid : Nat) (o : Order)
    (ho : db.orders.find? (fun x => x.id == oid) = some o) (fee : ℚ) :
    (fee < MIN_DELIVERY_FEE ∨ MAX_DELIVERY_FEE < fee →
      update_delivery_fee db oid (some fee) =
        .error ⟨"Delivery fee must be between 40 and 80 EGP", 400⟩) ∧
    (MIN_DELIVERY_FEE ≤ fee → fee ≤ MAX_DELIVERY_FEE →
      ∃ db' o', update_delivery_fee db oid (some fee) = .ok (db', o') ∧
        o'.delivery_fee = fee ∧
        o'.total_amount = o.subtotal + fee ∧
        o'.advance_amount = (o.subtotal + fee) * (ADVANCE_PAYMENT_PERCENTAGE / 100) ∧
        o'.subtotal = o.subtotal ∧ o'.status = o.status ∧
        db'.order_items = db.order_items) := by
  constructor
  · intro h
    simp only [update_delivery_fee, ho, if_pos h]
  · intro hlo hhi
    have hnb : ¬ (fee < MIN_DELIVERY_FEE ∨ MAX_DELIVERY_FEE < fee) := by
      push_neg
      exact ⟨hlo, hhi⟩
    simp only [update_delivery_fee, ho, if_neg hnb]
    exact ⟨_, _, rfl, rfl, rfl, rfl, rfl, rfl, rfl⟩

/-- Concrete database for the C6 witness: one placed order. -/
def dbC6 : DB := ⟨[], [], [⟨1, 1, "new", 175, 40, 215, 43, "X", ""⟩], [], [], 1, 2, 1, 1⟩

/-- Witness for C6 at a concrete order. -/
theorem claim_C6_delivery_fee_bounds_witness :
    dbC6.orders.find? (fun x => x.id == 1) =
      some ⟨1, 1, "new", 175, 40, 215, 43, "X", ""⟩ ∧
    (((20 : ℚ) < MIN_DELIVERY_FEE ∨ MAX_DELIVERY_FEE < (20 : ℚ) →
      update_delivery_fee dbC6 1 (some 20) =
        .error ⟨"Delivery fee must be between 40 and 80 EGP", 400⟩) ∧
    (MIN_DELIVERY_FEE ≤ (20 : ℚ) → (20 : ℚ) ≤ MAX_DELIVERY_FEE →
      ∃ db' o', update_delivery_fee dbC6 1 (some 20) = .ok (db', o') ∧
        o'.delivery_fee = 20 ∧
        o'.total_amount = 175 + 20 ∧
        o'.advance_amount = (175 + 20) * (ADVANCE_PAYMENT_PERCENTAGE / 100) ∧
        o'.subtotal = 175 ∧ o'.status = "new" ∧
        db'.order_items = dbC6.order_items)) :=
  ⟨by decide,
    claim_C6_delivery_fee_bounds dbC6 1 ⟨1, 1, "new", 175, 40, 215, 43, "X", ""⟩
      (by decide) 20⟩

/-- C7: rejecting a payment with a missing or blank rejection reason fails
with InvalidInput (the handler returns before the commit, so the payment
is unchanged); a non-blank reason sets the payment's status to `rejected`
and never touches the orders table. -/
theorem claim_C7_reject_requires_reason (db : DB) (pid : Nat) (nts : String)
    (p : Payment) (hp : db.payments.find? (fun q => q.id == pid) = some p) :
    (nts.trim = "" →
      reject_payment db pid nts = .error ⟨"Rejection reason required", 400⟩) ∧
    (nts.trim ≠ "" → ∃ db' p', reject_payment db pid nts = .ok (db', p') ∧
      p'.status = "rejected" ∧ p'.amount = p.amount ∧ p'.order_id = p.order_id ∧
      p'.method = p.method ∧ db'.orders = db.orders ∧
      ∃ l1 l2, db.payments = l1 ++ p :: l2 ∧ db'.payments = l1 ++ p' :: l2) := by
  constructor
  · intro h
    simp only [reject_payment, hp, if_pos h]
  · intro h
    obtain ⟨l1, l2, hl, hall, hupd⟩ := find?_split hp
    simp only [reject_payment, hp, if_neg h]
    exact ⟨_, _, rfl, rfl, rfl, rfl, rfl, rfl, l1, l2, hl, hupd _⟩

/-- Concrete database for the C7 witness: one pending payment. -/
def dbC7 : DB :=
  ⟨[], [], [⟨1, 1, "new", 175, 40, 215, 43, "X", ""⟩],
    [], [⟨1, 1, "instapay", 43, "pending", none, none, ""⟩], 1, 2, 1, 2⟩

/-- Witness for C7 at a concrete payment. -/
theorem claim_C7_reject_requires_reason_witness :
    dbC7.payments.find? (fun q => q.id == 1) =
      some ⟨1, 1, "instapay", 43, "pending", none, none, ""⟩ ∧
    ((("  " : String).trim = "" →
      reject_payment dbC7 1 "  " = .error ⟨"Rejection reason required", 400⟩) ∧
    (("  " : String).trim ≠ "" → ∃ db' p', reject_payment dbC7 1 "  " = .ok (db', p') ∧
      p'.status = "rejected" ∧ p'.amount = 43 ∧ p'.order_id = 1 ∧
      p'.method = "instapay" ∧ db'.orders = dbC7.orders ∧
      ∃ l1 l2, dbC7.payments =
          l1 ++ (⟨1, 1, "instapay", 43, "pending", none, none, ""⟩ : Payment) :: l2 ∧
        db'.payments = l1 ++ p' :: l2)) :=
  ⟨by decide,
    claim_C7_reject_requires_reason dbC7 1 "  "
      ⟨1, 1, "instapay", 43, "pending", none, none, ""⟩ (by decide)⟩

/-- C8: a successful proof upload updates the payment's proof reference
and forces its status back to `pending`, whatever the prior status was
(the prior status `p.status` is arbitrary here). -/
theorem claim_C8_upload_resets_pending (db : DB) (uid pid : Nat)
    (fn ts sec : String) (p : Payment)
    (hp : db.payments.find? (paymentOwnedBy db uid pid) = some p)
    (hfn : fn ≠ "") (hext : allowed_file fn = true) :
    ∃ db' p', upload_payment_proof db uid pid (some fn) ts sec = .ok (db', p') ∧
      p'.status = "pending" ∧
      p'.screenshot_url = some ("/static/uploads/payments/payment_" ++
        toString pid ++ "_" ++ ts ++ "_" ++ sec) ∧
      p'.order_id = p.order_id ∧ p'.amount = p.amount ∧ p'.method = p.method ∧
      ∃ l1 l2, db.payments = l1 ++ p :: l2 ∧ db'.payments = l1 ++ p' :: l2 := by
  obtain ⟨l1, l2, hl, hall, hupd⟩ := find?_split hp
  simp only [upload_payment_proof, hp, if_neg hfn, if_neg (not_not_intro hext)]
  exact ⟨_, _, rfl, rfl, rfl, rfl, rfl, rfl, l1, l2, hl, hupd _⟩

/-- Concrete database for the C8 witness: a rejected payment whose parent
order belongs to user 1. -/
def dbC8 : DB :=
  ⟨[], [], [⟨1, 1, "new", 175, 40, 215, 43, "X", ""⟩],
    [], [⟨1, 1, "instapay", 43, "rejected", none, none, "bad scan"⟩], 1, 2, 1, 2⟩

/-- Witness for C8: re-uploading proof on a rejected payment. -/
theorem claim_C8_upload_resets_pending_witness :
    dbC8.payments.find? (paymentOwnedBy dbC8 1 1) =
      some ⟨1, 1, "instapay", 43, "rejected", none, none, "bad scan"⟩ ∧
    ("pic.png" : String) ≠ "" ∧ allowed_file "pic.png" = true ∧
    (∃ db' p', upload_payment_proof dbC8 1 1 (some "pic.png") "20250101" "pic.png" =
        .ok (db', p') ∧
      p'.status = "pending" ∧
      p'.screenshot_url = some ("/static/uploads/payments/payment_" ++
        toString 1 ++ "_" ++ "20250101" ++ "_" ++ "pic.png") ∧
      p'.order_id = 1 ∧ p'.amount = 43 ∧ p'.method = "instapay" ∧
      ∃ l1 l2, dbC8.payments =
          l1 ++ (⟨1, 1, "instapay", 43, "rejected", none, none, "bad scan"⟩ : Payment) :: l2 ∧
        db'.payments = l1 ++ p' :: l2) :=
  ⟨by decide, by decide, by decide,
    claim_C8_upload_resets_pending dbC8 1 1 "pic.png" "20250101" "pic.png"
      ⟨1, 1, "instapay", 43, "rejected", none, none, "bad scan"⟩
      (by decide) (by decide) (by decide)⟩

/-- C4: confirming a payment sets its status to `confirmed`; the parent
order is advanced from `new` to `confirmed`, and any other parent status
leaves the orders table completely unchanged. -/
theorem claim_C4_confirm_advances_new_order (db : DB) (pid : Nat)
    (tid nts : String) (p : Payment)
    (hp : db.payments.find? (fun q => q.id == pid) = some p)
    (o : Order) (ho : db.orders.find? (fun x => x.id == p.order_id) = some o) :
    ∃ db' p', confirm_payment db pid tid nts = .ok (db', p') ∧
      p'.status = "confirmed" ∧
      (∃ l1 l2, db.orders = l1 ++ o :: l2 ∧
        db'.orders = l1 ++
          (if o.status = "new" then { o with status := "confirmed" } else o) :: l2) ∧
      (o.status ≠ "new" → db'.orders = db.orders) := by
  obtain ⟨l1, l2, hl, hall, hupd⟩ := find?_split ho
  simp only [confirm_payment, hp]
  refine ⟨_, _, rfl, rfl, ⟨l1, l2, hl, hupd _⟩, ?_⟩
  intro hnew
  rw [hupd _, if_neg hnew, ← hl]

/-- Concrete database for the C4 witness: a pending payment on a `new`
order. -/
def dbC4 : DB :=
  ⟨[], [], [⟨1, 1, "new", 175, 40, 215, 43, "X", ""⟩],
    [], [⟨1, 1, "instapay", 43, "pending", none, none, ""⟩], 1, 2, 1, 2⟩

/-- Witness for C4: confirming the payment of a `new` order. -/
theorem claim_C4_confirm_advances_new_order_witness :
    dbC4.payments.find? (fun q => q.id == 1) =
      some ⟨1, 1, "instapay", 43, "pending", none, none, ""⟩ ∧
    dbC4.orders.find? (fun x => x.id == 1) =
      some ⟨1, 1, "new", 175, 40, 215, 43, "X", ""⟩ ∧
    (∃ db' p', confirm_payment dbC4 1 "tx9" "" = .ok (db', p') ∧
      p'.status = "confirmed" ∧
      (∃ l1 l2, dbC4.orders =
          l1 ++ (⟨1, 1, "new", 175, 40, 215, 43, "X", ""⟩ : Order) :: l2 ∧
        db'.orders = l1 ++
          (if ("new" : String) = "new" then
            ({ (⟨1, 1, "new", 175, 40, 215, 43, "X", ""⟩ : Order) with
              status := "confirmed" })
          else ⟨1, 1, "new", 175, 40, 215, 43, "X", ""⟩) :: l2) ∧
      (("new" : String) ≠ "new" → db'.orders = dbC4.orders)) :=
  ⟨by decide, by decide,
    claim_C4_confirm_advances_new_order dbC4 1 "tx9" ""
      ⟨1, 1, "instapay", 43, "pending", none, none, ""⟩ (by decide)
      ⟨1, 1, "new", 175, 40, 215, 43, "X", ""⟩ (by decide)⟩

/-- C3: a second `create_payment` for an order that already has a payment
fails with Conflict (409) — the handler returns before any insert, so the
payments table is unchanged and the order keeps its single payment — and
any successful `create_payment` preserves the at-most-one-payment-per-
order invariant. -/
theorem claim_C3_payment_one_per_order (db : DB) (uid oid : Nat)
    (method nts : String) (p : Payment)
    (hp : db.payments.find? (fun q => q.order_id == oid) = some p)
    (hoid : oid ≠ 0) (hm : valid_methods.contains method = true)
    (o : Order)
    (ho : db.orders.find? (fun x => x.id == oid && x.user_id == uid) = some o) :
    create_payment db uid oid method nts =
      .error ⟨"Payment already exists for this order", 409⟩ ∧
    ∀ db2 uid2 oid2 m2 n2 db2' pay,
      create_payment db2 uid2 oid2 m2 n2 = .ok (db2', pay) →
      (∀ i, (db2.payments.filter (fun q => q.order_id == i)).length ≤ 1) →
      (∀ i, (db2'.payments.filter (fun q => q.order_id == i)).length ≤ 1) := by
  constructor
  · have h1 : ¬ ((oid == 0) = true ∨ method = "") := by
      rintro (h | h)
      · exact hoid (by simpa using h)
      · rw [h] at hm
        simp [valid_methods] at hm
    simp only [create_payment, if_neg h1, if_neg (not_not_intro hm), ho, hp]
  · intro db2 uid2 oid2 m2 n2 db2' pay h hinv i
    simp only [create_payment] at h
    split at h
    · exact absurd h (by simp)
    · split at h
      · exact absurd h (by simp)
      · split at h
        · exact absurd h (by simp)
        · rename_i order hord
          split at h
          · exact absurd h (by simp)
          · rename_i hnone
            injection h with h2
            injection h2 with ha hb
            rw [← ha]
            by_cases hi : oid2 = i
            · subst hi
              have hfil : db2.payments.filter (fun q => q.order_id == oid2) = [] :=
                mem_of_find?_filter_nil hnone
              simp [List.filter_append, hfil]
            · have hne : ((⟨db2.next_payment_id, oid2, m2, order.advance_amount,
                  "pending", none, none, n2.trim⟩ : Payment).order_id == i) = false := by
                simpa using hi
              simp only [List.filter_append, List.filter_cons, List.filter_nil, hne,
                Bool.false_eq_true, if_false, List.append_nil]
              exact hinv i

/-- Concrete database for the C3 witness: order 1 already has payment 1. -/
def dbC3 : DB :=
  ⟨[], [], [⟨1, 1, "new", 175, 40, 215, 43, "X", ""⟩],
    [], [⟨1, 1, "instapay", 43, "pending", none, none, ""⟩], 1, 2, 1, 2⟩

/-- Witness for C3: a second payment-creation attempt on order 1. -/
theorem claim_C3_payment_one_per_order_witness :
    dbC3.payments.find? (fun q => q.order_id == 1) =
      some ⟨1, 1, "instapay", 43, "pending", none, none, ""⟩ ∧
    (1 : Nat) ≠ 0 ∧
    valid_methods.contains "cod" = true ∧
    dbC3.orders.find? (fun x => x.id == 1 && x.user_id == 1) =
      some ⟨1, 1, "new", 175, 40, 215, 43, "X", ""⟩ ∧
    create_payment dbC3 1 1 "cod" "" =
      .error ⟨"Payment already exists for this order", 409⟩ :=
  ⟨by decide, by decide, by decide, by decide,
    (claim_C3_payment_one_per_order dbC3 1 1 "cod" ""
      ⟨1, 1, "instapay", 43, "pending", none, none, ""⟩ (by decide) (by decide)
      (by decide) ⟨1, 1, "new", 175, 40, 215, 43, "X", ""⟩ (by decide)).1⟩

/-- The row freshly inserted by `add_to_cart` matches its own owner
filter. -/
theorem cartOwnerMatches_insert (owner : Owner) (cid mid q : Nat) (n : String) :
    cartOwnerMatches owner
      ⟨cid, ownerSessionId owner, ownerUserId owner, mid, q, n⟩ = true := by
  cases owner <;> simp [cartOwnerMatches, ownerSessionId, ownerUserId]

/-- C5: adding the same (owner, menu item) twice with positive quantities
`q1` and `q2`, starting from a cart with no row for that pair, leaves
exactly one row for the pair and its quantity is `q1 + q2`. -/
theorem claim_C5_cart_add_additive (db : DB) (owner : Owner) (mid : Nat)
    (q1 q2 : Int) (n1 n2 : String) (m : MenuItem)
    (hq1 : 0 < q1) (hq2 : 0 < q2) (hmid : mid ≠ 0)
    (hm : db.menu_items.find? (fun x => x.id == mid) = some m)
    (hav : m.is_available = true)
    (hnone : db.cart.find? (fun c =>
      cartOwnerMatches owner c && c.menu_item_id == mid) = none) :
    ∃ db1 db2, add_to_cart db owner mid q1 n1 = .ok db1 ∧
      add_to_cart db1 owner mid q2 n2 = .ok db2 ∧
      (db2.cart.filter (fun c =>
        cartOwnerMatches owner c && c.menu_item_id == mid)).length = 1 ∧
      ∀ c ∈ db2.cart.filter (fun c =>
        cartOwnerMatches owner c && c.menu_item_id == mid),
        (c.quantity : ℤ) = q1 + q2 := by
  have hq1' : ¬ (q1 ≤ 0) := not_le.2 hq1
  have hq2' : ¬ (q2 ≤ 0) := not_le.2 hq2
  have hc1 : ¬ ((mid == 0) = true ∨ (q1 == 0) = true) := by
    rintro (h | h)
    · exact hmid (by simpa using h)
    · have : q1 = 0 := by simpa using h
      omega
  have hc2 : ¬ ((mid == 0) = true ∨ (q2 == 0) = true) := by
    rintro (h | h)
    · exact hmid (by simpa using h)
    · have : q2 = 0 := by simpa using h
      omega
  have hall : ∀ x ∈ db.cart,
      (cartOwnerMatches owner x && x.menu_item_id == mid) = false := by
    intro x hx
    have := List.find?_eq_none.1 hnone x hx
    simpa using this
  have h1 : add_to_cart db owner mid q1 n1 = .ok { db with
      cart := db.cart ++ [(⟨db.next_cart_id, ownerSessionId owner, ownerUserId owner,
        mid, q1.toNat, n1.trim⟩ : CartEntry)],
      next_cart_id := db.next_cart_id + 1 } := by
    simp only [add_to_cart, if_neg hc1, if_neg hq1', hm, if_neg (not_not_intro hav), hnone]
  have hpe1 : (cartOwnerMatches owner
      ⟨db.next_cart_id, ownerSessionId owner, ownerUserId owner, mid, q1.toNat, n1.trim⟩ &&
      (⟨db.next_cart_id, ownerSessionId owner, ownerUserId owner,
        mid, q1.toNat, n1.trim⟩ : CartEntry).menu_item_id == mid) = true := by
    simp [cartOwnerMatches_insert]
  have hfind2 : ((db.cart ++
      [(⟨db.next_cart_id, ownerSessionId owner, ownerUserId owner,
        mid, q1.toNat, n1.trim⟩ : CartEntry)]).find? (fun c =>
      cartOwnerMatches owner c && c.menu_item_id == mid)) =
      some ⟨db.next_cart_id, ownerSessionId owner, ownerUserId owner,
        mid, q1.toNat, n1.trim⟩ := by
    rw [find?_append_left _ hall]
    simp only [List.find?]
    rw [hpe1]
  have h2 : add_to_cart { db with
      cart := db.cart ++ [(⟨db.next_cart_id, ownerSessionId owner, ownerUserId owner,
        mid, q1.toNat, n1.trim⟩ : CartEntry)],
      next_cart_id := db.next_cart_id + 1 } owner mid q2 n2 = .ok { db with
      cart := db.cart ++ [(⟨db.next_cart_id, ownerSessionId owner, ownerUserId owner,
        mid, q1.toNat + q2.toNat,
        if n2.trim ≠ "" then n2.trim else n1.trim⟩ : CartEntry)],
      next_cart_id := db.next_cart_id + 1 } := by
    simp only [add_to_cart, if_neg hc2, if_neg hq2', hm, if_neg (not_not_intro hav), hfind2]
    rw [updateFirst_append_left _ hall]
    simp only [updateFirst, hpe1, if_true]
  refine ⟨_, _, h1, h2, ?_, ?_⟩
  · simp only [List.filter_append, mem_of_find?_filter_nil hnone, List.nil_append]
    simp [cartOwnerMatches_insert]
  · intro c hc
    simp only [List.filter_append, mem_of_find?_filter_nil hnone, List.nil_append] at hc
    have hc' : c ∈ [(⟨db.next_cart_id, ownerSessionId owner, ownerUserId owner,
        mid, q1.toNat + q2.toNat,
        if n2.trim ≠ "" then n2.trim else n1.trim⟩ : CartEntry)] := by
      exact List.mem_of_mem_filter hc
    have hce : c = ⟨db.next_cart_id, ownerSessionId owner, ownerUserId owner,
        mid, q1.toNat + q2.toNat,
        if n2.trim ≠ "" then n2.trim else n1.trim⟩ := by
      simpa using hc'
    rw [hce]
    simp only []
    omega

/-- Concrete database for the C5 witness: one available menu item, empty
cart. -/
def dbC5 : DB := ⟨[⟨1, 65, true⟩], [], [], [], [], 1, 1, 1, 1⟩

/-- Witness for C5: user 1 adds item 1 with quantities 2 and 3. -/
theorem claim_C5_cart_add_additive_witness :
    (0 : ℤ) < 2 ∧ (0 : ℤ) < 3 ∧ (1 : Nat) ≠ 0 ∧
    dbC5.menu_items.find? (fun x => x.id == 1) = some ⟨1, 65, true⟩ ∧
    (⟨1, 65, true⟩ : MenuItem).is_available = true ∧
    dbC5.cart.find? (fun c =>
      cartOwnerMatches (.user 1) c && c.menu_item_id == 1) = none ∧
    (∃ db1 db2, add_to_cart dbC5 (.user 1) 1 2 "" = .ok db1 ∧
      add_to_cart db1 (.user 1) 1 3 "" = .ok db2 ∧
      (db2.cart.filter (fun c =>
        cartOwnerMatches (.user 1) c && c.menu_item_id == 1)).length = 1 ∧
      ∀ c ∈ db2.cart.filter (fun c =>
        cartOwnerMatches (.user 1) c && c.menu_item_id == 1),
        (c.quantity : ℤ) = 2 + 3) :=
  ⟨by decide, by decide, by decide, by decide, by decide, by decide,
    claim_C5_cart_add_additive dbC5 (.user 1) 1 2 3 "" "" ⟨1, 65, true⟩
      (by decide) (by decide) (by decide) (by decide) (by decide) (by decide)⟩

/-- Filtering with `p` after keeping only the rows failing `p` yields
nothing: a `delete()` of the matching rows leaves no match behind. -/
theorem filter_not_filter (p : α → Bool) (l : List α) :
    (l.filter (fun a => !(p a))).filter p = [] := by
  induction l with
  | nil => rfl
  | cons a t ih =>
    cases h : p a with
    | true => simp [List.filter_cons, h, ih]
    | false => simp [List.filter_cons, h, ih]

/-- C1: a successful checkout empties the caller's cart, creates exactly
one `OrderItem` per cart entry on the new order with `unit_price` frozen
to the referenced menu item's price at call time, and a later price edit
through the menu API never touches the `order_items` table. -/
theorem claim_C1_checkout_atomic (db : DB) (uid : Nat) (addr nts : String)
    (haddr : addr ≠ "")
    (hne : db.cart.filter (fun c => c.user_id == some uid) ≠ [])
    (hfresh : ∀ oi ∈ db.order_items, oi.order_id ≠ db.next_order_id) :
    ∃ db' o, create_order db uid addr nts = .ok (db', o) ∧
      db'.cart.filter (fun c => c.user_id == some uid) = [] ∧
      (db'.order_items.filter (fun oi => oi.order_id == o.id)).length =
        (db.cart.filter (fun c => c.user_id == some uid)).length ∧
      (∀ oi ∈ db'.order_items.filter (fun oi => oi.order_id == o.id),
        ∃ c ∈ db.cart.filter (fun c => c.user_id == some uid),
          oi.menu_item_id = c.menu_item_id ∧ oi.quantity = c.quantity ∧
          oi.unit_price = priceOf db c.menu_item_id ∧
          ∀ m, db.menu_items.find? (fun x => x.id == c.menu_item_id) = some m →
            oi.unit_price = m.price) ∧
      (∀ mid q db2, update_menu_item_price db' mid q = .ok db2 →
        db2.order_items = db'.order_items) := by
  have hne' : ¬ ((db.cart.filter (fun c => c.user_id == some uid)).isEmpty = true) := by
    simp only [List.isEmpty_iff]
    exact hne
  have hf1 : db.order_items.filter (fun oi => oi.order_id == db.next_order_id) = [] := by
    rw [List.filter_eq_nil_iff]
    intro oi hoi
    simpa using hfresh oi hoi
  have hf2 : (buildOrderItems db db.next_order_id db.next_order_item_id
      (db.cart.filter (fun c => c.user_id == some uid))).filter
      (fun oi => oi.order_id == db.next_order_id) =
      buildOrderItems db db.next_order_id db.next_order_item_id
        (db.cart.filter (fun c => c.user_id == some uid)) := by
    rw [List.filter_eq_self]
    intro oi hoi
    simpa using buildOrderItems_order_id db _ _ _ oi hoi
  simp only [create_order, if_neg haddr, if_neg hne']
  refine ⟨_, _, rfl, ?_, ?_, ?_, ?_⟩
  · exact filter_not_filter _ db.cart
  · simp only [List.filter_append, hf1, hf2, List.nil_append]
    exact buildOrderItems_length db _ _ _
  · intro oi hoi
    simp only [List.filter_append, hf1, hf2, List.nil_append] at hoi
    obtain ⟨c, hc, h1, h2, h3, -⟩ := buildOrderItems_mem db _ _ _ oi hoi
    refine ⟨c, hc, h1, h2, h3, ?_⟩
    intro m hm
    rw [h3]
    simp [priceOf, hm]
  · intro mid q db2 h
    simp only [update_menu_item_price] at h
    split at h
    · exact absurd h (by simp)
    · injection h with h2
      rw [← h2]

/-- Concrete database for the C1 witness: two menu items, user 1 holds
two of item 1 and one of item 2. -/
def dbC1 : DB :=
  ⟨[⟨1, 65, true⟩, ⟨2, 45, true⟩],
    [⟨1, none, some 1, 1, 2, ""⟩, ⟨2, none, some 1, 2, 1, ""⟩],
    [], [], [], 3, 1, 1, 1⟩

/-- Witness for C1: checking out user 1's two-entry cart. -/
theorem claim_C1_checkout_atomic_witness :
    ("X" : String) ≠ "" ∧
    dbC1.cart.filter (fun c => c.user_id == some 1) ≠ [] ∧
    (∀ oi ∈ dbC1.order_items, oi.order_id ≠ dbC1.next_order_id) ∧
    (∃ db' o, create_order dbC1 1 "X" "" = .ok (db', o) ∧
      db'.cart.filter (fun c => c.user_id == some 1) = [] ∧
      (db'.order_items.filter (fun oi => oi.order_id == o.id)).length =
        (dbC1.cart.filter (fun c => c.user_id == some 1)).length ∧
      (∀ oi ∈ db'.order_items.filter (fun oi => oi.order_id == o.id),
        ∃ c ∈ dbC1.cart.filter (fun c => c.user_id == some 1),
          oi.menu_item_id = c.menu_item_id ∧ oi.quantity = c.quantity ∧
          oi.unit_price = priceOf dbC1 c.menu_item_id ∧
          ∀ m, dbC1.menu_items.find? (fun x => x.id == c.menu_item_id) = some m →
            oi.unit_price = m.price) ∧
      (∀ mid q db2, update_menu_item_price db' mid q = .ok db2 →
        db2.order_items = db'.order_items)) :=
  ⟨by decide, by decide, by decide,
    claim_C1_checkout_atomic dbC1 1 "X" "" (by decide) (by decide) (by decide)⟩

/-- C10: `reorder` copies a past order's items back into the cart without
any availability check, so a currently unavailable menu item enters the
cart, while `add_to_cart` rejects the very same item with the
"not available" error. -/
theorem claim_C10_reorder_skips_availability (db : DB) (uid oid : Nat)
    (o : Order)
    (ho : db.orders.find? (fun x => x.id == oid && x.user_id == uid) = some o)
    (oi : OrderItem)
    (hitems : db.order_items.filter (fun x => x.order_id == oid) = [oi])
    (m : MenuItem)
    (hm : db.menu_items.find? (fun x => x.id == oi.menu_item_id) = some m)
    (hunav : m.is_available = false)
    (hnocart : db.cart.find? (fun c =>
      c.user_id == some uid && c.menu_item_id == oi.menu_item_id) = none)
    (q : Int) (hq : 0 < q) (hmid : oi.menu_item_id ≠ 0) (n : String) :
    (∃ db', reorder db uid oid = .ok db' ∧
      ∃ c ∈ db'.cart, c.user_id = some uid ∧ c.menu_item_id = oi.menu_item_id ∧
        c.quantity = oi.quantity) ∧
    add_to_cart db (.user uid) oi.menu_item_id q n =
      .error ⟨"Menu item is not available", 400⟩ := by
  constructor
  · simp only [reorder, ho, hitems, List.foldl_cons, List.foldl_nil, reorderStep, hnocart]
    refine ⟨_, rfl, ⟨db.next_cart_id, none, some uid, oi.menu_item_id,
      oi.quantity, oi.notes⟩, ?_, rfl, rfl, rfl⟩
    exact List.mem_append_right _ (List.mem_singleton.2 rfl)
  · have hc : ¬ ((oi.menu_item_id == 0) = true ∨ (q == 0) = true) := by
      rintro (h | h)
      · exact hmid (by simpa using h)
      · have : q = 0 := by simpa using h
        omega
    have hq' : ¬ (q ≤ 0) := not_le.2 hq
    have hv : ¬ (m.is_available = true) := by
      rw [hunav]
      simp
    simp only [add_to_cart, if_neg hc, if_neg hq', hm, if_pos hv]

/-- Concrete database for the C10 witness: order 1 of user 1 holds two of
menu item 1, which has meanwhile been made unavailable. -/
def dbC10 : DB :=
  ⟨[⟨1, 65, false⟩], [], [⟨1, 1, "delivered", 130, 40, 170, 34, "X", ""⟩],
    [⟨1, 1, 1, 2, 65, ""⟩], [], 1, 2, 2, 1⟩

/-- Witness for C10: reordering order 1 inserts the unavailable item. -/
theorem claim_C10_reorder_skips_availability_witness :
    dbC10.orders.find? (fun x => x.id == 1 && x.user_id == 1) =
      some ⟨1, 1, "delivered", 130, 40, 170, 34, "X", ""⟩ ∧
    dbC10.order_items.filter (fun x => x.order_id == 1) = [⟨1, 1, 1, 2, 65, ""⟩] ∧
    dbC10.menu_items.find? (fun x => x.id == 1) = some ⟨1, 65, false⟩ ∧
    (⟨1, 65, false⟩ : MenuItem).is_available = false ∧
    dbC10.cart.find? (fun c => c.user_id == some 1 && c.menu_item_id == 1) = none ∧
    ((∃ db', reorder dbC10 1 1 = .ok db' ∧
      ∃ c ∈ db'.cart, c.user_id = some 1 ∧ c.menu_item_id = 1 ∧ c.quantity = 2) ∧
    add_to_cart dbC10 (.user 1) 1 1 "" =
      .error ⟨"Menu item is not available", 400⟩) :=
  ⟨by decide, by decide, by decide, by decide, by decide,
    claim_C10_reorder_skips_availability dbC10 1 1
      ⟨1, 1, "delivered", 130, 40, 170, 34, "X", ""⟩ (by decide)
      ⟨1, 1, 1, 2, 65, ""⟩ (by decide) ⟨1, 65, false⟩ (by decide) (by decide)
      (by decide) 1 (by decide) (by decide) ""⟩

/-- One `merge_cart` call, in the state where the session owns exactly
the single guest row `g` and the user already has a row `u` for the same
menu item: the guest row is left in place (still session-owned) and the
user row's quantity grows by `g.quantity`.  The conclusions re-establish
the hypotheses, so the lemma composes with itself for a second merge. -/
theorem merge_cart_step (db : DB) (uid : Nat) (sid : String) (g u : CartEntry)
    (hg : db.cart.filter (fun c => c.session_id == some sid) = [g])
    (hgid : db.cart.find? (fun c => c.id == g.id) = some g)
    (hu : db.cart.find? (fun c =>
      c.user_id == some uid && c.menu_item_id == g.menu_item_id) = some u)
    (hgu : g.user_id = none) :
    (merge_cart db uid sid).cart.filter (fun c => c.session_id == some sid) = [g] ∧
    (merge_cart db uid sid).cart.find? (fun c => c.id == g.id) = some g ∧
    (merge_cart db uid sid).cart.find? (fun c =>
      c.user_id == some uid && c.menu_item_id == g.menu_item_id) =
      some { u with
        quantity := u.quantity + g.quantity,
        notes := if g.notes ≠ "" ∧ u.notes = "" then g.notes else u.notes } := by
  have hPu' : u.user_id = some uid ∧ u.menu_item_id = g.menu_item_id := by
    simpa using List.find?_some hu
  have hug : u ≠ g := by
    intro h
    rw [h, hgu] at hPu'
    exact Option.noConfusion hPu'.1
  obtain ⟨l1, l2, hl, hall, hupd⟩ := find?_split hu
  have hcart' : (merge_cart db uid sid).cart = l1 ++
      ({ u with
        quantity := u.quantity + g.quantity,
        notes := if g.notes ≠ "" ∧ u.notes = "" then g.notes else u.notes }) :: l2 := by
    simp only [merge_cart, hg, List.map_cons, List.map_nil, List.foldl_cons,
      List.foldl_nil, mergeOne, hgid, hu]
    exact hupd _
  have hpu : (u.session_id == some sid) = false := by
    cases hps : (u.session_id == some sid) with
    | false => rfl
    | true =>
      have humem : u ∈ db.cart := by
        rw [hl]
        exact List.mem_append_right _ (List.mem_cons_self u l2)
      have : u ∈ db.cart.filter (fun c => c.session_id == some sid) :=
        List.mem_filter.2 ⟨humem, hps⟩
      rw [hg] at this
      exact absurd (List.mem_singleton.1 this) hug
  refine ⟨?_, ?_, ?_⟩
  · rw [hcart']
    have hgoal := hg
    rw [hl, List.filter_append, List.filter_cons] at hgoal
    rw [List.filter_append, List.filter_cons]
    simp only [hpu, Bool.false_eq_true, if_false] at hgoal ⊢
    exact hgoal
  · rw [hcart']
    have hgid' : (l1 ++ u :: l2).find? (fun c => c.id == g.id) = some g := by
      rw [← hl]
      exact hgid
    exact find?_replace_mid hgid' rfl (Ne.symm hug)
  · rw [hcart']
    rw [find?_append_left _ hall]
    exact List.find?_cons_of_pos _ (by simp [hPu'.1, hPu'.2])

/-- C9: when the guest cart entry's menu item already exists in the user
cart, `merge_cart` adds the guest quantity into the user row but neither
deletes nor re-owns the guest row: it stays session-owned, the guest cart
is unchanged, and a second merge for the same session adds the quantity
again. -/
theorem claim_C9_merge_keeps_guest_row (db : DB) (uid : Nat) (sid : String)
    (g u : CartEntry)
    (hg : db.cart.filter (fun c => c.session_id == some sid) = [g])
    (hgid : db.cart.find? (fun c => c.id == g.id) = some g)
    (hu : db.cart.find? (fun c =>
      c.user_id == some uid && c.menu_item_id == g.menu_item_id) = some u)
    (hgu : g.user_id = none) :
    (g ∈ (merge_cart db uid sid).cart ∧ g.session_id = some sid) ∧
    (merge_cart db uid sid).cart.filter (fun c => c.session_id == some sid) = [g] ∧
    (∃ u1 ∈ (merge_cart db uid sid).cart, u1.user_id = some uid ∧
      u1.menu_item_id = g.menu_item_id ∧ u1.quantity = u.quantity + g.quantity) ∧
    (∃ u2 ∈ (merge_cart (merge_cart db uid sid) uid sid).cart,
      u2.user_id = some uid ∧ u2.menu_item_id = g.menu_item_id ∧
      u2.quantity = u.quantity + 2 * g.quantity) := by
  have hPu : u.user_id = some uid ∧ u.menu_item_id = g.menu_item_id := by
    simpa using List.find?_some hu
  obtain ⟨hg1, hgid1, hu1⟩ := merge_cart_step db uid sid g u hg hgid hu hgu
  obtain ⟨hg2, hgid2, hu2⟩ :=
    merge_cart_step (merge_cart db uid sid) uid sid g _ hg1 hgid1 hu1 hgu
  refine ⟨⟨?_, ?_⟩, hg1, ?_, ?_⟩
  · have hmem : g ∈ (merge_cart db uid sid).cart.filter
        (fun c => c.session_id == some sid) := by
      rw [hg1]
      exact List.mem_singleton.2 rfl
    exact List.mem_of_mem_filter hmem
  · have hmem : g ∈ db.cart.filter (fun c => c.session_id == some sid) := by
      rw [hg]
      exact List.mem_singleton.2 rfl
    simpa using (List.mem_filter.1 hmem).2
  · refine ⟨_, List.mem_of_find?_eq_some hu1, ?_, ?_, rfl⟩
    · exact hPu.1
    · exact hPu.2
  · refine ⟨_, List.mem_of_find?_eq_some hu2, ?_, ?_, ?_⟩
    · exact hPu.1
    · exact hPu.2
    · show u.quantity + g.quantity + g.quantity = u.quantity + 2 * g.quantity
      omega

/-- Concrete database for the C9 witness: guest session "s" holds two of
item 1, user 1 already holds three of item 1. -/
def dbC9 : DB :=
  ⟨[⟨1, 65, true⟩],
    [⟨1, some "s", none, 1, 2, ""⟩, ⟨2, none, some 1, 1, 3, ""⟩],
    [], [], [], 3, 1, 1, 1⟩

/-- Witness for C9: merging guest cart "s" into user 1's cart. -/
theorem claim_C9_merge_keeps_guest_row_witness :
    dbC9.cart.filter (fun c => c.session_id == some "s") =
      [⟨1, some "s", none, 1, 2, ""⟩] ∧
    dbC9.cart.find? (fun c => c.id == 1) = some ⟨1, some "s", none, 1, 2, ""⟩ ∧
    dbC9.cart.find? (fun c => c.user_id == some 1 && c.menu_item_id == 1) =
      some ⟨2, none, some 1, 1, 3, ""⟩ ∧
    ((⟨1, some "s", none, 1, 2, ""⟩ : CartEntry) ∈ (merge_cart dbC9 1 "s").cart ∧
      (⟨1, some "s", none, 1, 2, ""⟩ : CartEntry).session_id = some "s") ∧
    (merge_cart dbC9 1 "s").cart.filter (fun c => c.session_id == some "s") =
      [⟨1, some "s", none, 1, 2, ""⟩] ∧
    (∃ u1 ∈ (merge_cart dbC9 1 "s").cart, u1.user_id = some 1 ∧
      u1.menu_item_id = 1 ∧ u1.quantity = 3 + 2) ∧
    (∃ u2 ∈ (merge_cart (merge_cart dbC9 1 "s") 1 "s").cart,
      u2.user_id = some 1 ∧ u2.menu_item_id = 1 ∧ u2.quantity = 3 + 2 * 2) :=
  ⟨by decide, by decide, by decide,
    (claim_C9_merge_keeps_guest_row dbC9 1 "s" ⟨1, some "s", none, 1, 2, ""⟩
      ⟨2, none, some 1, 1, 3, ""⟩ (by decide) (by decide) (by decide) (by decide)).1,
    (claim_C9_merge_keeps_guest_row dbC9 1 "s" ⟨1, some "s", none, 1, 2, ""⟩
      ⟨2, none, some 1, 1, 3, ""⟩ (by decide) (by decide) (by decide) (by decide)).2.1,
    (claim_C9_merge_keeps_guest_row dbC9 1 "s" ⟨1, some "s", none, 1, 2, ""⟩
      ⟨2, none, some 1, 1, 3, ""⟩ (by decide) (by decide) (by decide) (by decide)).2.2.1,
    (claim_C9_merge_keeps_guest_row dbC9 1 "s" ⟨1, some "s", none, 1, 2, ""⟩
      ⟨2, none, some 1, 1, 3, ""⟩ (by decide) (by decide) (by decide) (by decide)).2.2.2⟩

end TheKitchen
